import Mathlib

/-!
Verification of the okta-mcp-server tool-dispatch runtime and its
multi-session (SSE) transport layer, as a shallow embedding in Lean 4.

The embedding follows the JavaScript source:
* `index.js` (`setupServerHandlers`, `transformTools`, the SSE express
  routes and the `responseWrapper` object),
* `lib/tools.js` (`discoverTools`),
* the tool modules under `tools/` (each exports an `apiTool` record with a
  `definition.function` descriptor and an executable `function`).

JavaScript values flowing through the dispatch engine are modelled by a
`Json` inductive; handler bodies (which perform network calls, out of scope
here) are modelled as functions `Json → Except String Json`, an `Except.error`
carrying the `message` of the rejection.  Handler invocation is made
observable by a trace of invoked handler names, so "the handler body is never
invoked" is expressible as an empty trace.
-/

namespace OktaMcp

/-- Model of a JavaScript / JSON value as it flows through the dispatch
engine: null, booleans, (integer) numbers, strings, arrays and objects.
Objects keep their key order, matching JavaScript object semantics. -/
inductive Json where
  | null : Json
  | bool : Bool → Json
  | num : Int → Json
  | str : String → Json
  | arr : List Json → Json
  | obj : List (String × Json) → Json

/-- JavaScript truthiness of a `Json` value: `null`, `false`, `0` and the
empty string are falsy; every array and object is truthy. -/
def jsTruthy : Json → Bool
  | .null => false
  | .bool b => b
  | .num n => n != 0
  | .str s => s != ""
  | .arr _ => true
  | .obj _ => true

/-- Property read on a JavaScript object: the value bound to the first
occurrence of key `k` in the key-value list, if any. -/
def lookupKey (kvs : List (String × Json)) (k : String) : Option Json :=
  match kvs.find? (fun kv => kv.fst == k) with
  | some kv => some kv.snd
  | none => none

/-- The JavaScript `k in o` check used by the required-parameter loop:
a presence check on the object's keys, not a truthiness check on the bound
value (a key bound to `null` or an empty value counts as present).  On a
non-object the check is false. -/
def hasKey (j : Json) (k : String) : Bool :=
  match j with
  | .obj kvs => kvs.any (fun kv => kv.fst == k)
  | _ => false

/-- One hexadecimal digit, lower case, as emitted by `JSON.stringify` for
control-character escapes. -/
def hexDigit (n : Nat) : Char :=
  if n < 10 then Char.ofNat (48 + n) else Char.ofNat (87 + n)

/-- Four-digit hexadecimal rendering of a code point below 0x10000. -/
def hex4 (n : Nat) : String :=
  String.mk [hexDigit (n / 4096 % 16), hexDigit (n / 256 % 16),
             hexDigit (n / 16 % 16), hexDigit (n % 16)]

/-- Escaping of one character inside a JSON string literal, following
`JSON.stringify`: quote, backslash and the named control characters get a
two-character escape, all other control characters a `\u00XX` escape. -/
def escapeChar (c : Char) : String :=
  if c = '"' then "\\\""
  else if c = '\\' then "\\\\"
  else if c = '\n' then "\\n"
  else if c = '\r' then "\\r"
  else if c = '\t' then "\\t"
  else if c = Char.ofNat 8 then "\\b"
  else if c = Char.ofNat 12 then "\\f"
  else if c.toNat < 32 then "\\u" ++ hex4 c.toNat
  else String.singleton c

/-- Escaping of a whole string body for a JSON string literal. -/
def escapeString (s : String) : String :=
  String.join (s.toList.map escapeChar)

/-- A JSON string literal: the escaped body between double quotes. -/
def quoteString (s : String) : String :=
  "\"" ++ escapeString s ++ "\""

/-- A run of `n` spaces, the indentation produced by a gap of `n`. -/
def indentOf (n : Nat) : String :=
  String.mk (List.replicate n ' ')

mutual

/-- Model of `JSON.stringify(v, null, 2)` at current indentation `gap`:
pretty-printed JSON with two-space indentation, as used by the dispatch
engine to serialize a handler result into the text content item. -/
def stringifyAt (gap : Nat) : Json → String
  | .null => "null"
  | .bool b => if b then "true" else "false"
  | .num n => toString n
  | .str s => quoteString s
  | .arr xs =>
      if xs.isEmpty then "[]"
      else "[\n" ++ stringifyElems (gap + 2) xs ++ "\n" ++ indentOf gap ++ "]"
  | .obj kvs =>
      if kvs.isEmpty then "\x7b\x7d"
      else "\x7b\n" ++ stringifyMembers (gap + 2) kvs ++ "\n" ++ indentOf gap ++ "\x7d"

/-- Serialization of the comma-separated, newline-terminated array elements. -/
def stringifyElems (gap : Nat) : List Json → String
  | [] => ""
  | [x] => indentOf gap ++ stringifyAt gap x
  | x :: y :: xs =>
      indentOf gap ++ stringifyAt gap x ++ ",\n" ++ stringifyElems gap (y :: xs)

/-- Serialization of the comma-separated, newline-terminated object members. -/
def stringifyMembers (gap : Nat) : List (String × Json) → String
  | [] => ""
  | [kv] => indentOf gap ++ quoteString kv.fst ++ ": " ++ stringifyAt gap kv.snd
  | kv :: kv2 :: kvs =>
      indentOf gap ++ quoteString kv.fst ++ ": " ++ stringifyAt gap kv.snd ++ ",\n"
        ++ stringifyMembers gap (kv2 :: kvs)

end

/-- Model of `JSON.stringify(v, null, 2)` as called by the dispatch engine. -/
def jsonStringify2 (v : Json) : String :=
  stringifyAt 0 v

/-- The `function` descriptor inside a tool module's `definition`
(`definition.function` in the source): a name, a description and the
JSON-Schema-like `parameters` object (kept verbatim as a `Json` value, since
the engine passes it through unchanged as `inputSchema`). -/
structure FunctionDef where
  name : String
  description : String
  parameters : Option Json

/-- The `definition` record of a tool module; its `function` member may be
absent on a malformed module. -/
structure ToolDefinition where
  function : Option FunctionDef

/-- A discovered tool as held in the in-memory handler table: the spread of
the module's `apiTool` export plus the registry `path`.  The executable body
(`tool.function` in the source) is an async function modelled as
`Json → Except String Json`; `Except.error m` models a rejection whose error
has `message` `m`.  Either member may be absent on a malformed module. -/
structure Tool where
  definition : Option ToolDefinition
  function : Option (Json → Except String Json)
  path : Option String := none

/-- The chain `tool.definition?.function?.name` used by the handler lookup. -/
def toolFnName (t : Tool) : Option String :=
  t.definition.bind (fun d => d.function.map (fun df => df.name))

/-- The chain `tool.definition?.function?.parameters`. -/
def toolParameters (t : Tool) : Option Json :=
  t.definition.bind (fun d => d.function.bind (fun df => df.parameters))

/-- The expression `tool.definition?.function?.parameters?.required || []`:
the schema-declared required-parameter list, empty when the chain is absent.
In every schema of the repository the `required` member is an array of string
literals; string entries are taken in their declared order. -/
def requiredList (params : Option Json) : List String :=
  match params with
  | some (.obj kvs) =>
      match lookupKey kvs "required" with
      | some (.arr xs) =>
          xs.filterMap (fun j => match j with | .str s => some s | _ => none)
      | _ => []
  | _ => []

/-- The lookup `tools.find((t) => t.definition?.function?.name === toolName)`. -/
def findTool (tools : List Tool) (toolName : String) : Option Tool :=
  tools.find? (fun t => toolFnName t == some toolName)

/-- The expression `request.params.arguments || {}`: a missing or falsy
`arguments` member is replaced by the empty object before validation. -/
def resolveArgs (arguments : Option Json) : Json :=
  match arguments with
  | some j => if jsTruthy j then j else .obj []
  | none => .obj []

/-- The required-parameter loop: the first schema-declared required parameter
that is not present as a key of the arguments object, if any. -/
def firstMissingRequired (t : Tool) (args : Json) : Option String :=
  (requiredList (toolParameters t)).find? (fun r => !(hasKey args r))

/-- The protocol error codes thrown by the dispatch engine (`McpError`). -/
inductive ErrorCode where
  | MethodNotFound : ErrorCode
  | InvalidParams : ErrorCode
  | InternalError : ErrorCode

/-- The JSON-RPC numeric value of each protocol error code. -/
def ErrorCode.code : ErrorCode → Int
  | .MethodNotFound => -32601
  | .InvalidParams => -32602
  | .InternalError => -32603

/-- Outcome of one `callTool` dispatch: either the protocol success response
value returned by the request handler, or a protocol error (a thrown
`McpError`, which the protocol layer renders as an error response rather
than letting it escape to the transport). -/
inductive CallOutcome where
  | success : Json → CallOutcome
  | mcpError : ErrorCode → String → CallOutcome

/-- The `params` of a CallTool request: the tool `name` and the optional
`arguments` object. -/
structure CallParams where
  name : String
  arguments : Option Json

/-- The CallTool request handler installed by `setupServerHandlers`,
instrumented with a trace of the handler bodies it invokes (so that "the
handler body is never invoked" is an empty trace).  Steps, in source order:
look up the tool by exact name (unknown name: MethodNotFound error carrying
the name); default missing or falsy `arguments` to the empty object; throw
InvalidParams naming the first schema-declared required parameter missing
from the arguments object; otherwise invoke the body inside try/catch,
wrapping a returned value as a single text content item holding the value
pretty-printed, and translating a rejection with message `m` into an
InternalError whose message is "API error: " followed by `m`.  A found tool
whose executable member is absent makes the call expression itself throw a
TypeError inside the try block, caught by the same catch, with no handler
body invoked. -/
def callToolTrace (tools : List Tool) (params : CallParams) :
    CallOutcome × List String :=
  match findTool tools params.name with
  | none => (.mcpError .MethodNotFound ("Unknown tool: " ++ params.name), [])
  | some tool =>
      let args := resolveArgs params.arguments
      match firstMissingRequired tool args with
      | some missing =>
          (.mcpError .InvalidParams ("Missing required parameter: " ++ missing), [])
      | none =>
          match tool.function with
          | none =>
              (.mcpError .InternalError "API error: tool.function is not a function", [])
          | some f =>
              match f args with
              | .ok result =>
                  (.success (Json.obj
                    [("content", Json.arr
                      [Json.obj [("type", Json.str "text"),
                                 ("text", Json.str (jsonStringify2 result))]])]),
                   [params.name])
              | .error msg =>
                  (.mcpError .InternalError ("API error: " ++ msg), [params.name])

/-- The dispatch outcome alone, without the instrumentation trace. -/
def callTool (tools : List Tool) (params : CallParams) : CallOutcome :=
  (callToolTrace tools params).fst

/-- One advertised entry of the tool listing: name, description, and
`inputSchema`, which the transform sets to the handler's `parameters`
object unchanged. -/
structure AdvertisedTool where
  name : String
  description : String
  inputSchema : Option Json

/-- The `transformTools` function: map every tool to its advertised entry
and drop (filter out) any tool whose `definition?.function` chain is absent. -/
def transformTools (tools : List Tool) : List AdvertisedTool :=
  tools.filterMap (fun tool =>
    (tool.definition.bind (fun d => d.function)).map (fun df =>
      { name := df.name, description := df.description,
        inputSchema := df.parameters }))

/-- The ListTools request handler: it returns the transformed tool list for
the handler table captured at setup time.  The handler is a pure function of
that table, so it is deterministic across repeated calls. -/
def listTools (tools : List Tool) : List AdvertisedTool :=
  transformTools tools

/-- A loaded tool module as seen by discovery: its optional `apiTool`
export.  A module whose dynamic import throws is represented by the loader
returning no module at all. -/
structure ToolModule where
  apiTool : Option Tool

/-- The intermediate `const tools = (await Promise.all(toolPromises)).filter(Boolean)`
of `discoverTools`: per registry path, attempt the load; an import that
throws is caught, returned as `null` and removed by `filter(Boolean)`; a
module that loads contributes the spread of its `apiTool` export plus the
registry `path` — even when the export is absent, in which case the spread
of `undefined` leaves both `definition` and `function` absent. -/
def collectTools (loadModule : String → Option ToolModule)
    (toolPaths : List String) : List Tool :=
  toolPaths.filterMap (fun file =>
    (loadModule file).map (fun m =>
      match m.apiTool with
      | some t => { t with path := some file }
      | none => { definition := none, function := none, path := some file }))

/-- The `discoverTools` function of `lib/tools.js`, parameterized by the
dynamic-import environment `loadModule` (`none` models an import that
throws, which the per-module try/catch converts to `null`, removed by
`filter(Boolean)`).  After collecting the list (`collectTools`), the function evaluates
`tools.map(t => t.definition.function.name)` for its final diagnostic log;
that member chain has no optional chaining, so the whole call rejects with a
TypeError as soon as any collected tool lacks `definition.function`. -/
def discoverTools (loadModule : String → Option ToolModule)
    (toolPaths : List String) : Except String (List Tool) :=
  if (collectTools loadModule toolPaths).all
      (fun t => (t.definition.bind (fun d => d.function)).isSome)
  then .ok (collectTools loadModule toolPaths)
  else .error "TypeError: cannot read function of undefined"

/-- One chunk of an HTTP response body: either a JSON payload sent by
`res.json` or a raw string sent by `res.send`, `res.write` or `res.end`. -/
inductive BodyChunk where
  | jsonBody : Json → BodyChunk
  | raw : String → BodyChunk

/-- Model of the express response object, tracking the pieces the transport
layer reads or writes: status code, headers, the headers-sent flag, the body
chunks emitted so far, and whether the response has ended. -/
structure HttpResponse where
  statusCode : Nat := 200
  headers : List (String × String) := []
  headersSent : Bool := false
  body : List BodyChunk := []
  ended : Bool := false

/-- Model of `res.status(code)`. -/
def resStatus (res : HttpResponse) (code : Nat) : HttpResponse :=
  { res with statusCode := code }

/-- Model of `res.setHeader(k, v)`. -/
def resSetHeader (res : HttpResponse) (k v : String) : HttpResponse :=
  { res with headers := res.headers ++ [(k, v)] }

/-- Model of `res.json(payload)`: serializes and sends the payload and
finishes the response. -/
def resJson (res : HttpResponse) (payload : Json) : HttpResponse :=
  { res with body := res.body ++ [.jsonBody payload],
             headersSent := true, ended := true }

/-- Model of `res.send(data)`: sends the payload verbatim and finishes the
response. -/
def resSend (res : HttpResponse) (data : String) : HttpResponse :=
  { res with body := res.body ++ [.raw data],
             headersSent := true, ended := true }

/-- Model of `res.write(data)`: streams one chunk verbatim without ending
the response. -/
def resWrite (res : HttpResponse) (data : String) : HttpResponse :=
  { res with body := res.body ++ [.raw data], headersSent := true }

/-- Model of `res.end()` with no payload. -/
def resEnd (res : HttpResponse) : HttpResponse :=
  { res with headersSent := true, ended := true }

/-- The expression `req.body?.id || null` used for every envelope's `id`:
the `id` member of the parsed body when that body is an object and the
member is truthy, `null` otherwise. -/
def requestIdOf (reqBody : Option Json) : Json :=
  match reqBody with
  | some (.obj kvs) =>
      match lookupKey kvs "id" with
      | some v => if jsTruthy v then v else .null
      | none => .null
  | _ => .null

/-- The HTTP 400 body sent when a posted message finds no live session. -/
def invalidSessionEnvelope (id : Json) : Json :=
  .obj [("jsonrpc", .str "2.0"),
        ("error", .obj [("code", .num (-32602)),
                        ("message", .str "Invalid session"),
                        ("data", .str "No transport/server found for sessionId")]),
        ("id", id)]

/-- The HTTP 500 body sent when the handoff to the session's server throws
and no part of the response has been sent yet. -/
def internalServerErrorEnvelope (errMsg : String) (id : Json) : Json :=
  .obj [("jsonrpc", .str "2.0"),
        ("error", .obj [("code", .num (-32000)),
                        ("message", .str "Internal server error"),
                        ("data", .str errMsg)]),
        ("id", id)]

/-- The JSON-RPC success envelope emitted by the response wrapper in place
of the "Accepted" sentinel payload. -/
def acceptedEnvelope (id : Json) : Json :=
  .obj [("jsonrpc", .str "2.0"),
        ("result", .obj [("status", .str "accepted")]),
        ("id", id)]

/-- The `writeHead` operation of the `responseWrapper`: set the HTTP status
and, when headers are given, each header in turn. -/
def wrapperWriteHead (res : HttpResponse) (statusCode : Nat)
    (headers : Option (List (String × String))) : HttpResponse :=
  match headers with
  | some hs => hs.foldl (fun r kv => resSetHeader r kv.fst kv.snd) (resStatus res statusCode)
  | none => resStatus res statusCode

/-- The `end` operation of the `responseWrapper`: the exact sentinel payload
"Accepted" is replaced by the JSON-RPC success envelope with the fixed
result marker; any other truthy (non-empty) payload is sent through
unchanged; an empty or absent payload just ends the response. -/
def wrapperEnd (reqBody : Option Json) (res : HttpResponse)
    (payload : Option String) : HttpResponse :=
  match payload with
  | some s =>
      if s == "Accepted" then resJson res (acceptedEnvelope (requestIdOf reqBody))
      else if s != "" then resSend res s
      else resEnd res
  | none => resEnd res

/-- The `write` operation of the `responseWrapper`: stream the chunk
verbatim to the underlying HTTP response. -/
def wrapperWrite (res : HttpResponse) (data : String) : HttpResponse :=
  resWrite res data

/-- The stream transport registered for a session, abstracted to the effect
of its `handlePostMessage` on the (wrapped) HTTP response: the response
state it leaves behind, paired with the message of the exception it throws,
if any. -/
structure SseTransport where
  handlePostMessage : HttpResponse → HttpResponse × Option String

/-- The two parallel session lookup tables of the multi-session adapter,
keyed by session identifier: the stream transports and the per-session
protocol server instances (whose inner structure the route only tests for
presence, so their type is a parameter). -/
structure SessionTables (σ : Type) where
  transports : List (String × SseTransport)
  servers : List (String × σ)

/-- An indexing read `table[sessionId]` on a session-keyed table. -/
def lookupTable {α : Type} (table : List (String × α)) (k : String) : Option α :=
  match table.find? (fun kv => kv.fst == k) with
  | some kv => some kv.snd
  | none => none

/-- The close handler installed on a session's event stream: delete both
table entries for the session identifier (the server instance is also
closed, an effect outside the tables). -/
def closeSession {σ : Type} (tables : SessionTables σ) (sessionId : String) :
    SessionTables σ :=
  { transports := tables.transports.filter (fun kv => kv.fst != sessionId),
    servers := tables.servers.filter (fun kv => kv.fst != sessionId) }

/-- The POST /messages route of the multi-session adapter, instrumented with
a flag recording whether the handoff (`transport.handlePostMessage`) was
invoked.  Both tables are consulted for the session identifier; if either
entry is missing the route immediately answers HTTP 400 with the
invalid-session envelope and performs no processing of the message.
Otherwise the message is handed to the session's transport; an exception
thrown during the handoff is caught and answered with the HTTP 500
internal-server-error envelope, but only when `res.headersSent` is still
false — once the response stream has started, no further error response is
attempted. -/
def postMessages {σ : Type} (tables : SessionTables σ) (sessionId : String)
    (reqBody : Option Json) (res : HttpResponse) : HttpResponse × Bool :=
  match lookupTable tables.transports sessionId,
        lookupTable tables.servers sessionId with
  | some transport, some _ =>
      match transport.handlePostMessage res with
      | (res2, none) => (res2, true)
      | (res2, some errMsg) =>
          if res2.headersSent then (res2, true)
          else (resJson (resStatus res2 500)
                  (internalServerErrorEnvelope errMsg (requestIdOf reqBody)), true)
  | _, _ =>
      (resJson (resStatus res 400)
        (invalidSessionEnvelope (requestIdOf reqBody)), false)

/-- The declared `parameters` schema of the repository's `get_user` tool
module (`tools/user-manager/get-user.js`), transcribed verbatim. -/
def getUserParameters : Json :=
  .obj [("type", .str "object"),
        ("properties", .obj
          [("userId", .obj
            [("type", .str "string"),
             ("description", .str "User identifier - can be user ID (00u...), login, or email address")])]),
        ("required", .arr [.str "userId"])]

/-- The `definition.function` descriptor of the `get_user` tool module,
transcribed verbatim. -/
def getUserFunctionDef : FunctionDef :=
  { name := "get_user",
    description := "Fetch detailed information about a specific user in Okta. Supports lookup by user ID, login, or email address. Returns comprehensive profile and activity information.",
    parameters := some getUserParameters }

/-- The `get_user` tool record as discovery builds it, with the executable
body (an outbound HTTP call, an external collaborator) as a parameter. -/
def getUserTool (body : Json → Except String Json) : Tool :=
  { definition := some ⟨some getUserFunctionDef⟩,
    function := some body,
    path := some "user-manager/get-user.js" }

/-- The declared `parameters` schema of the repository's `list_users` tool
module (`tools/user-manager/list-users.js`), transcribed verbatim; its
`required` list is empty. -/
def listUsersParameters : Json :=
  .obj [("type", .str "object"),
        ("properties", .obj
          [("q", .obj
            [("type", .str "string"),
             ("description", .str "Simple search query across firstName, lastName, and email fields. Example: \"john.doe\" or \"engineering\"")]),
           ("after", .obj
            [("type", .str "string"),
             ("description", .str "Pagination cursor for the next page of results (returned in previous response)")]),
           ("limit", .obj
            [("type", .str "integer"),
             ("description", .str "Number of results per page (1-200, default 200)"),
             ("minimum", .num 1),
             ("maximum", .num 200),
             ("default", .num 200)]),
           ("filter", .obj
            [("type", .str "string"),
             ("description", .str "Advanced filter expression. Examples: \x27status eq \"ACTIVE\"\x27, \x27profile.department eq \"Engineering\"\x27, \x27created gt \"2023-01-01T00:00:00.000Z\"\x27")]),
           ("search", .obj
            [("type", .str "string"),
             ("description", .str "SCIM-compliant search expression for complex queries")])]),
        ("required", .arr [])]

/-- The `definition.function` descriptor of the `list_users` tool module,
transcribed verbatim. -/
def listUsersFunctionDef : FunctionDef :=
  { name := "list_users",
    description := "List users in an Okta organization with advanced filtering, search, and pagination capabilities. Supports quick search and SCIM filters.",
    parameters := some listUsersParameters }

/-- The `list_users` tool record as discovery builds it, with the executable
body as a parameter. -/
def listUsersTool (body : Json → Except String Json) : Tool :=
  { definition := some ⟨some listUsersFunctionDef⟩,
    function := some body,
    path := some "user-manager/list-users.js" }

/-- A stub handler body standing in for an out-of-scope network call that
resolves with the given value. -/
def constBody (v : Json) : Json → Except String Json :=
  fun _ => .ok v

/-- A stub handler body standing in for an out-of-scope network call that
rejects with the given message. -/
def failBody (msg : String) : Json → Except String Json :=
  fun _ => .error msg

/-- A dynamic-import environment for exercising discovery: the registry's
`get-user` module loads with its `apiTool` export; the file `broken.js`
models a module that imports successfully but exports no `apiTool`; every
other path fails to import. -/
def sampleLoadModule : String → Option ToolModule :=
  fun file =>
    if file == "user-manager/get-user.js" then
      some ({ apiTool := some (getUserTool (constBody .null)) })
    else if file == "broken.js" then
      some ({ apiTool := none })
    else none

/-- C1: for every call to the dispatch engine with a resolved handler whose
schema declares required parameters, if any required property is not present
as a key of the arguments object (a presence check via `hasKey`, under which
an explicit null or empty value counts as present), the call fails with an
"invalid params" protocol error naming the first missing required parameter
in schema-declared order (`firstMissingRequired` is `List.find?` over the
schema's `required` list), and no handler body is invoked (empty trace). -/
theorem callTool_missing_required (tools : List Tool) (params : CallParams)
    (tool : Tool) (missing : String)
    (hfind : findTool tools params.name = some tool)
    (hmiss : firstMissingRequired tool (resolveArgs params.arguments) = some missing) :
    callToolTrace tools params =
      (CallOutcome.mcpError .InvalidParams ("Missing required parameter: " ++ missing),
       []) := by
  simp only [callToolTrace, hfind, hmiss]

/-- C1 witness: calling the repository's get_user handler with an empty
arguments object fails with the invalid-params error naming userId and an
empty invocation trace. -/
theorem callTool_missing_required_witness :
    callToolTrace [getUserTool (constBody Json.null)]
        ⟨"get_user", some (Json.obj [])⟩ =
      (CallOutcome.mcpError .InvalidParams ("Missing required parameter: " ++ "userId"),
       []) :=
  callTool_missing_required _ _ (getUserTool (constBody Json.null)) "userId" rfl rfl

/-- C2: for every call with a name not matching any handler table entry, the
call fails with a "method not found" protocol error whose message carries
the unknown name, and no handler body is invoked (empty trace). -/
theorem callTool_unknown_name (tools : List Tool) (params : CallParams)
    (habsent : findTool tools params.name = none) :
    callToolTrace tools params =
      (CallOutcome.mcpError .MethodNotFound ("Unknown tool: " ++ params.name), []) := by
  simp only [callToolTrace, habsent]

/-- C2 witness: calling an unregistered name against the table holding only
get_user yields the method-not-found error and an empty trace. -/
theorem callTool_unknown_name_witness :
    callToolTrace [getUserTool (constBody Json.null)] ⟨"no_such_tool", none⟩ =
      (CallOutcome.mcpError .MethodNotFound ("Unknown tool: " ++ "no_such_tool"), []) :=
  callTool_unknown_name _ _ rfl

/-- C3: for every handler body that rejects with message `msg`, the dispatch
resolves to an "internal error" protocol outcome embedding `msg` in the form
"API error: msg"; since `callToolTrace` is a total function into
`CallOutcome`, no raw error escapes dispatch.  The trace records that the
handler body was invoked. -/
theorem callTool_handler_rejection (tools : List Tool) (params : CallParams)
    (tool : Tool) (body : Json → Except String Json) (msg : String)
    (hfind : findTool tools params.name = some tool)
    (hok : firstMissingRequired tool (resolveArgs params.arguments) = none)
    (hfn : tool.function = some body)
    (hfail : body (resolveArgs params.arguments) = .error msg) :
    callToolTrace tools params =
      (CallOutcome.mcpError .InternalError ("API error: " ++ msg), [params.name]) := by
  simp only [callToolTrace, hfind, hok, hfn, hfail]

/-- C3 witness: a get_user body rejecting with message "network down" under
valid arguments resolves to the internal error embedding that message. -/
theorem callTool_handler_rejection_witness :
    callToolTrace [getUserTool (failBody "network down")]
        ⟨"get_user", some (Json.obj [("userId", Json.str "00u1")])⟩ =
      (CallOutcome.mcpError .InternalError ("API error: " ++ "network down"),
       ["get_user"]) :=
  callTool_handler_rejection _ _ (getUserTool (failBody "network down"))
    (failBody "network down") "network down" rfl rfl rfl rfl

/-- C4: for every dispatch whose handler body returns a value `v`, the
protocol success response is exactly one text content item whose text is `v`
serialized by the model of `JSON.stringify(v, null, 2)`. -/
theorem callTool_success_shape (tools : List Tool) (params : CallParams)
    (tool : Tool) (body : Json → Except String Json) (v : Json)
    (hfind : findTool tools params.name = some tool)
    (hok : firstMissingRequired tool (resolveArgs params.arguments) = none)
    (hfn : tool.function = some body)
    (hret : body (resolveArgs params.arguments) = .ok v) :
    callToolTrace tools params =
      (CallOutcome.success (Json.obj
        [("content", Json.arr
          [Json.obj [("type", Json.str "text"),
                     ("text", Json.str (jsonStringify2 v))]])]),
       [params.name]) := by
  simp only [callToolTrace, hfind, hok, hfn, hret]

/-- C4 witness: a list_users body returning a small object produces the
single-text-content success response wrapping its serialization. -/
theorem callTool_success_shape_witness :
    callToolTrace [listUsersTool (constBody (Json.obj [("ok", Json.bool true)]))]
        ⟨"list_users", some (Json.obj [])⟩ =
      (CallOutcome.success (Json.obj
        [("content", Json.arr
          [Json.obj [("type", Json.str "text"),
                     ("text", Json.str (jsonStringify2 (Json.obj [("ok", Json.bool true)])))]])]),
       ["list_users"]) :=
  callTool_success_shape _ _
    (listUsersTool (constBody (Json.obj [("ok", Json.bool true)])))
    (constBody (Json.obj [("ok", Json.bool true)]))
    (Json.obj [("ok", Json.bool true)]) rfl rfl rfl rfl

/-- C10: for every call request whose params carry no arguments member, or a
null one, the engine substitutes the empty object before validation — the
dispatch outcome equals that of the same request with an explicit empty
arguments object — and a resolved handler whose schema declares no required
parameter is invoked (trace contains its name) rather than the call
failing. -/
theorem callTool_defaults_empty_args (tools : List Tool) (params : CallParams)
    (habs : params.arguments = none ∨ params.arguments = some Json.null) :
    callToolTrace tools params =
      callToolTrace tools ⟨params.name, some (Json.obj [])⟩ ∧
    (∀ tool body, findTool tools params.name = some tool →
      requiredList (toolParameters tool) = [] →
      tool.function = some body →
      (callToolTrace tools params).snd = [params.name]) := by
  have hargs : resolveArgs params.arguments = Json.obj [] := by
    rcases habs with h | h <;> simp [resolveArgs, h, jsTruthy]
  constructor
  · simp only [callToolTrace, hargs]
    rfl
  · intro tool body hfind hreq hfn
    simp only [callToolTrace, hfind, hargs, firstMissingRequired, hreq,
               List.find?, hfn]
    cases hbody : body (Json.obj []) <;> simp

/-- C10 witness: calling list_users (no required parameters) with no
arguments member dispatches as with an explicit empty object, and the
handler body is invoked. -/
theorem callTool_defaults_empty_args_witness :
    (callToolTrace [listUsersTool (constBody Json.null)] ⟨"list_users", none⟩ =
      callToolTrace [listUsersTool (constBody Json.null)]
        ⟨"list_users", some (Json.obj [])⟩) ∧
    (callToolTrace [listUsersTool (constBody Json.null)] ⟨"list_users", none⟩).snd =
      ["list_users"] :=
  ⟨(callTool_defaults_empty_args [listUsersTool (constBody Json.null)]
      ⟨"list_users", none⟩ (Or.inl rfl)).1,
   (callTool_defaults_empty_args [listUsersTool (constBody Json.null)]
      ⟨"list_users", none⟩ (Or.inl rfl)).2
      (listUsersTool (constBody Json.null)) (constBody Json.null) rfl rfl rfl⟩

/-- Specification-side rendering of one handler as a listing entry, for
comparison with `transformTools`: the entry carries the handler's name and
description and its parameter schema passed through unchanged as
`inputSchema` (with placeholder fields for a handler missing its function
definition, a shape a successful discovery excludes). -/
def advertisedOf (t : Tool) : AdvertisedTool :=
  match t.definition.bind (fun d => d.function) with
  | some df => { name := df.name, description := df.description,
                 inputSchema := df.parameters }
  | none => { name := "", description := "", inputSchema := none }

/-- A handler table returned by a successful discovery holds only tools
whose `definition.function` chain is present (otherwise the final diagnostic
log of `discoverTools` would have thrown). -/
theorem discoverTools_ok_defs (loadModule : String → Option ToolModule)
    (toolPaths : List String) (tools : List Tool)
    (h : discoverTools loadModule toolPaths = .ok tools) :
    ∀ t ∈ tools, (t.definition.bind (fun d => d.function)).isSome = true := by
  unfold discoverTools at h
  split at h
  case isTrue hall =>
    injection h with h2
    subst h2
    intro t ht
    exact List.all_eq_true.mp hall t ht
  case isFalse hall => cases h

/-- On a table whose tools all carry a function definition, the transform
keeps exactly one entry per tool, in table order. -/
theorem transformTools_eq_map (tools : List Tool)
    (h : ∀ t ∈ tools, (t.definition.bind (fun d => d.function)).isSome = true) :
    transformTools tools = tools.map advertisedOf := by
  induction tools with
  | nil => rfl
  | cons t ts ih =>
    have ht := h t (List.mem_cons_self t ts)
    have hts : ∀ x ∈ ts, (x.definition.bind (fun d => d.function)).isSome = true :=
      fun x hx => h x (List.mem_cons_of_mem t hx)
    rcases Option.isSome_iff_exists.mp ht with ⟨df, hdf⟩
    simp only [transformTools, List.filterMap_cons, hdf, Option.map_some',
               List.map_cons]
    rw [show advertisedOf t =
          ({ name := df.name, description := df.description,
             inputSchema := df.parameters } : AdvertisedTool) from by
        simp [advertisedOf, hdf]]
    exact congrArg _ (ih hts)

/-- C5: for every handler table produced by a successful discovery, the tool
listing contains exactly one entry per loaded handler, in table order — the
listing equals the table mapped through `advertisedOf`, whose `inputSchema`
is the handler's declared parameter schema unchanged; under the repository
invariant that every loadable module declares a non-empty name, every
listed name is non-empty; and, the listing being a pure function of the
table, repeated calls with no intervening discovery change return identical
output. -/
theorem listTools_discovered (loadModule : String → Option ToolModule)
    (toolPaths : List String) (tools : List Tool)
    (hdisc : discoverTools loadModule toolPaths = .ok tools)
    (hnames : ∀ t ∈ tools, ∀ df,
      t.definition.bind (fun d => d.function) = some df → df.name ≠ "") :
    listTools tools = tools.map advertisedOf ∧
    (listTools tools).length = tools.length ∧
    (∀ t ∈ tools, (advertisedOf t).inputSchema = toolParameters t) ∧
    (∀ a ∈ listTools tools, a.name ≠ "") ∧
    listTools tools = listTools tools := by
  have hdefs := discoverTools_ok_defs loadModule toolPaths tools hdisc
  have hmap : listTools tools = tools.map advertisedOf :=
    transformTools_eq_map tools hdefs
  refine ⟨hmap, ?_, ?_, ?_, rfl⟩
  · rw [hmap, List.length_map]
  · intro t ht
    rcases Option.isSome_iff_exists.mp (hdefs t ht) with ⟨df, hdf⟩
    rcases Option.bind_eq_some.mp hdf with ⟨d, hd, hfn⟩
    simp [advertisedOf, hdf, toolParameters, hd, hfn]
  · intro a ha
    rw [hmap] at ha
    rcases List.mem_map.mp ha with ⟨t, ht, rfl⟩
    rcases Option.isSome_iff_exists.mp (hdefs t ht) with ⟨df, hdf⟩
    have hne := hnames t ht df hdf
    simpa [advertisedOf, hdf] using hne

/-- C5 witness: discovery over the registry entry for get-user produces the
one-tool table, whose listing is that tool's advertised entry with its
declared schema, with a non-empty name. -/
theorem listTools_discovered_witness :
    listTools [getUserTool (constBody Json.null)] =
      [getUserTool (constBody Json.null)].map advertisedOf ∧
    (listTools [getUserTool (constBody Json.null)]).length =
      [getUserTool (constBody Json.null)].length ∧
    (∀ t ∈ [getUserTool (constBody Json.null)],
      (advertisedOf t).inputSchema = toolParameters t) ∧
    (∀ a ∈ listTools [getUserTool (constBody Json.null)], a.name ≠ "") ∧
    listTools [getUserTool (constBody Json.null)] =
      listTools [getUserTool (constBody Json.null)] :=
  listTools_discovered sampleLoadModule ["user-manager/get-user.js"]
    [getUserTool (constBody Json.null)] rfl
    (by
      intro t ht df hdf
      rw [List.mem_singleton] at ht
      subst ht
      injection hdf with hdf
      subst hdf
      decide)

/-- C6: for every POST to the messages endpoint carrying a session
identifier, if either the transport table or the server table lacks a live
entry for that identifier (which covers identifiers never established as
well as identifiers whose close handler already removed both entries), the
request is answered with HTTP 400 carrying exactly the invalid-session
JSON-RPC envelope, regardless of message content, and the message is not
handed to any transport (no partial processing: the flag is false). -/
theorem postMessages_invalid_session {σ : Type} (tables : SessionTables σ)
    (sessionId : String) (reqBody : Option Json) (res : HttpResponse)
    (hmissing : lookupTable tables.transports sessionId = none ∨
                lookupTable tables.servers sessionId = none) :
    postMessages tables sessionId reqBody res =
      (resJson (resStatus res 400) (invalidSessionEnvelope (requestIdOf reqBody)),
       false) := by
  rcases hmissing with h | h
  · simp only [postMessages, h]
  · cases ha : lookupTable tables.transports sessionId with
    | none => simp only [postMessages, ha]
    | some t => simp only [postMessages, ha, h]

/-- C6 witness: after the close handler removed session s1, posting with s1
is rejected with the 400 invalid-session envelope and no handoff occurs. -/
theorem postMessages_invalid_session_witness :
    postMessages
        (closeSession
          ({ transports := [("s1", ⟨fun r => (r, none)⟩)],
             servers := [("s1", ())] } : SessionTables Unit) "s1")
        "s1" none ({} : HttpResponse) =
      (resJson (resStatus ({} : HttpResponse) 400)
        (invalidSessionEnvelope (requestIdOf none)), false) :=
  postMessages_invalid_session _ "s1" none _ (Or.inl rfl)

/-- C7: for every exception thrown while handing a posted message to a live
session's transport, the route answers HTTP 500 with the structured
internal-server-error envelope when no part of the response has been sent,
and leaves the response untouched — attempting no second error response —
once the response stream has already started (headers sent). -/
theorem postMessages_handoff_exception {σ : Type} (tables : SessionTables σ)
    (sessionId : String) (reqBody : Option Json) (res res2 : HttpResponse)
    (transport : SseTransport) (srv : σ) (errMsg : String)
    (ht : lookupTable tables.transports sessionId = some transport)
    (hs : lookupTable tables.servers sessionId = some srv)
    (hthrow : transport.handlePostMessage res = (res2, some errMsg)) :
    (res2.headersSent = false →
      postMessages tables sessionId reqBody res =
        (resJson (resStatus res2 500)
          (internalServerErrorEnvelope errMsg (requestIdOf reqBody)), true)) ∧
    (res2.headersSent = true →
      postMessages tables sessionId reqBody res = (res2, true)) := by
  constructor <;> intro hh <;> simp only [postMessages, ht, hs, hthrow, hh] <;> simp

/-- C7 witness: a handoff that throws before writing yields the 500
envelope; a handoff that throws after streaming a chunk leaves the response
as the transport left it, with no error envelope appended. -/
theorem postMessages_handoff_exception_witness :
    (postMessages
        ({ transports := [("s1", ⟨fun r => (r, some "boom")⟩)],
           servers := [("s1", ())] } : SessionTables Unit)
        "s1" none ({} : HttpResponse) =
      (resJson (resStatus ({} : HttpResponse) 500)
        (internalServerErrorEnvelope "boom" (requestIdOf none)), true)) ∧
    (postMessages
        ({ transports := [("s1", ⟨fun r => (resWrite r "partial", some "boom")⟩)],
           servers := [("s1", ())] } : SessionTables Unit)
        "s1" none ({} : HttpResponse) =
      (resWrite ({} : HttpResponse) "partial", true)) :=
  ⟨(postMessages_handoff_exception
      ({ transports := [("s1", ⟨fun r => (r, some "boom")⟩)],
         servers := [("s1", ())] } : SessionTables Unit)
      "s1" none ({} : HttpResponse) ({} : HttpResponse)
      ⟨fun r => (r, some "boom")⟩ () "boom" rfl rfl rfl).1 rfl,
   (postMessages_handoff_exception
      ({ transports := [("s1", ⟨fun r => (resWrite r "partial", some "boom")⟩)],
         servers := [("s1", ())] } : SessionTables Unit)
      "s1" none ({} : HttpResponse)
      (resWrite ({} : HttpResponse) "partial")
      ⟨fun r => (resWrite r "partial", some "boom")⟩
      () "boom" rfl rfl rfl).2 rfl⟩

/-- C8: the response wrapper's end operation replaces exactly the sentinel
payload "Accepted" by the JSON-RPC success envelope with the fixed accepted
result marker; any other non-empty payload is sent through unchanged
(appended verbatim to the response body); and the write operation streams
its chunk verbatim to the underlying HTTP response. -/
theorem responseWrapper_end_write_semantics :
    (∀ reqBody res, wrapperEnd reqBody res (some "Accepted") =
        resJson res (acceptedEnvelope (requestIdOf reqBody))) ∧
    (∀ reqBody res payload, payload ≠ "Accepted" → payload ≠ "" →
        wrapperEnd reqBody res (some payload) = resSend res payload ∧
        (wrapperEnd reqBody res (some payload)).body =
          res.body ++ [BodyChunk.raw payload]) ∧
    (∀ res data, wrapperWrite res data = resWrite res data ∧
        (wrapperWrite res data).body = res.body ++ [BodyChunk.raw data]) := by
  refine ⟨fun reqBody res => rfl, ?_, fun res data => ⟨rfl, rfl⟩⟩
  intro reqBody res payload h1 h2
  have : wrapperEnd reqBody res (some payload) = resSend res payload := by
    simp only [wrapperEnd]
    rw [if_neg (by simpa using h1), if_pos (by simpa using h2)]
  exact ⟨this, by rw [this]; rfl⟩

/-- C8 witness: ending with the sentinel emits the accepted envelope; ending
with another payload passes it through; writing streams the chunk. -/
theorem responseWrapper_end_write_semantics_witness :
    wrapperEnd none ({} : HttpResponse) (some "Accepted") =
      resJson ({} : HttpResponse) (acceptedEnvelope (requestIdOf none)) ∧
    wrapperEnd none ({} : HttpResponse) (some "hello") =
      resSend ({} : HttpResponse) "hello" ∧
    wrapperWrite ({} : HttpResponse) "chunk" = resWrite ({} : HttpResponse) "chunk" :=
  ⟨responseWrapper_end_write_semantics.1 none {},
   (responseWrapper_end_write_semantics.2.1 none {} "hello"
     (by decide) (by decide)).1,
   (responseWrapper_end_write_semantics.2.2 {} "chunk").1⟩

/-- C9: at the failing input — a registry whose second entry imports
successfully but exports no `apiTool` — discovery does not skip the
definition-less unit: the whole `discoverTools` call rejects with a
TypeError raised by its final diagnostic log (`t.definition.function.name`
has no optional chaining), so the healthy first entry is lost too.  By
contrast an entry whose import itself throws (here: an unknown path) is
skipped as the claim describes, the remaining entry loading normally. -/
theorem discoverTools_aborts_on_module_without_definition :
    discoverTools sampleLoadModule ["user-manager/get-user.js", "broken.js"] =
      Except.error "TypeError: cannot read function of undefined" ∧
    discoverTools sampleLoadModule ["user-manager/get-user.js", "missing.js"] =
      Except.ok [getUserTool (constBody Json.null)] :=
  ⟨rfl, rfl⟩

end OktaMcp
